import Mathlib

/-!
Verification of the canvas path `Builder`
(`src/graphics/src/widget/canvas/path/builder.rs`).

The builder is a thin wrapper over an external geometry engine (lyon)
accessed through a small capability set: `move_to`, `line_to`,
`quadratic_bezier_to`, `cubic_bezier_to`, `arc_to`, `close`,
`current_position` and `build`, plus an arc sampling/decomposition
capability.  We embed the wrapper faithfully: the engine's state is the
sequence of primitive commands it has received together with its cursor,
and each builder operation is translated statement by statement from the
Rust source.  Engine internals that live outside the provided sources
(the cursor bookkeeping contract, the arc sampler/decomposer, the
default arc flags, the `Arc → Elliptical` conversion) are modelled from
the specification and are marked as such in their doc comments.
-/

namespace Iced

/-- Model of an `f32` coordinate value: either NaN or an exact numeric
value.  Rounding is not modelled: every arithmetic operation the source
performs is represented exactly, which is faithful here because the
properties under scrutiny apply the very same operations on both sides. -/
inductive F where
  | nan : F
  | num : Rat → F
deriving DecidableEq, Repr

/-- Addition of modelled floats: NaN is absorbing, numeric values add. -/
def F.add : F → F → F
  | F.num a, F.num b => F.num (a + b)
  | _, _ => F.nan

instance : Add F := ⟨F.add⟩

/-- IEEE-style equality on modelled floats, as Rust `==` on `f32`: NaN
compares unequal to everything, itself included; numeric values compare
by value. -/
def F.ieeeEq : F → F → Bool
  | F.num a, F.num b => decide (a = b)
  | _, _ => false

/-- A 2D point, as `iced_native::Point` and `lyon::math::Point`. -/
structure Point where
  x : F
  y : F
deriving DecidableEq, Repr

/-- A 2D vector, as `lyon::math::Vector`. -/
structure Vector where
  x : F
  y : F
deriving DecidableEq, Repr

/-- A size, as `iced_native::Size`: width and height. -/
structure Size where
  width : F
  height : F
deriving DecidableEq, Repr

/-- Componentwise IEEE equality on points, modelling the `PartialEq`
used by `self.raw.current_position() != a` in `Builder::arc_to`. -/
def Point.ieeeEq (p q : Point) : Bool :=
  F.ieeeEq p.x q.x && F.ieeeEq p.y q.y

/-- The origin, `(0, 0)`. -/
def Point.origin : Point := ⟨F.num 0, F.num 0⟩

/-- Modelled from the spec: the engine's arc flags for its
`arc_to(radii, rotation, flags, to)` capability (`lyon::path::ArcFlags`,
which is outside the provided sources): a large-arc flag and a sweep
flag. -/
structure ArcFlags where
  large_arc : Bool
  sweep : Bool
deriving DecidableEq, Repr

/-- Modelled from the spec: the engine's `ArcFlags::default()` (a
derived `Default`, outside the provided sources): both flags `false`. -/
def ArcFlags.default : ArcFlags := ⟨false, false⟩

/-- One primitive command of the external engine's path-builder
capability, per section 6 of the spec: `move_to`, `line_to`,
`quadratic_bezier_to`, `cubic_bezier_to`, `arc_to` and `close`. -/
inductive Event where
  | moveTo (p : Point)
  | lineTo (p : Point)
  | quadraticBezierTo (ctrl «to» : Point)
  | cubicBezierTo (ctrl1 ctrl2 «to» : Point)
  | arcTo (radii : Vector) (rotation : F) (flags : ArcFlags) («to» : Point)
  | close
deriving DecidableEq, Repr

/-- Modelled from the spec: the state of the external engine's SVG path
builder (`lyon::path::builder::SvgPathBuilder`, outside the provided
sources): the sequence of commands received so far, the cursor (the
"current position": the endpoint of the last-appended segment), and the
starting point of the current sub-path (the target of `close`).  Per the
spec, the SVG builder starts with implicit move-to-origin semantics, so
both points start at the origin. -/
structure SvgPathBuilder where
  events : List Event
  current : Point
  first : Point
deriving DecidableEq, Repr

/-- Modelled from the spec: a fresh engine builder with no commands. -/
def SvgPathBuilder.new : SvgPathBuilder :=
  ⟨[], Point.origin, Point.origin⟩

/-- Modelled from the spec: the engine's `current_position()` query. -/
def SvgPathBuilder.current_position (s : SvgPathBuilder) : Point :=
  s.current

/-- Modelled from the spec: the engine's `move_to` primitive: records
the command and starts a new sub-path at `p`, placing the cursor there. -/
def SvgPathBuilder.move_to (s : SvgPathBuilder) (p : Point) : SvgPathBuilder :=
  ⟨s.events ++ [Event.moveTo p], p, p⟩

/-- Modelled from the spec: the engine's `line_to` primitive: records
the command and advances the cursor to `p`. -/
def SvgPathBuilder.line_to (s : SvgPathBuilder) (p : Point) : SvgPathBuilder :=
  ⟨s.events ++ [Event.lineTo p], p, s.first⟩

/-- Modelled from the spec: the engine's `quadratic_bezier_to`
primitive: records the command and advances the cursor to `to`. -/
def SvgPathBuilder.quadratic_bezier_to (s : SvgPathBuilder)
    (ctrl «to» : Point) : SvgPathBuilder :=
  ⟨s.events ++ [Event.quadraticBezierTo ctrl «to»], «to», s.first⟩

/-- Modelled from the spec: the engine's `cubic_bezier_to` primitive:
records the command and advances the cursor to `to`. -/
def SvgPathBuilder.cubic_bezier_to (s : SvgPathBuilder)
    (ctrl1 ctrl2 «to» : Point) : SvgPathBuilder :=
  ⟨s.events ++ [Event.cubicBezierTo ctrl1 ctrl2 «to»], «to», s.first⟩

/-- Modelled from the spec: the engine's `arc_to(radii, rotation,
flags, to)` primitive: records the command and advances the cursor to
the arc's destination `to`. -/
def SvgPathBuilder.arc_to (s : SvgPathBuilder) (radii : Vector)
    (rotation : F) (flags : ArcFlags) («to» : Point) : SvgPathBuilder :=
  ⟨s.events ++ [Event.arcTo radii rotation flags «to»], «to», s.first⟩

/-- Modelled from the spec: the engine's `close` primitive: records the
command; the sub-path is closed with a straight line back to its
starting point, so the cursor moves there. -/
def SvgPathBuilder.close (s : SvgPathBuilder) : SvgPathBuilder :=
  ⟨s.events ++ [Event.close], s.first, s.first⟩

/-- A finalized, immutable path: the engine's built representation,
modelled as the accumulated command sequence. -/
structure Path where
  raw : List Event
deriving DecidableEq, Repr

/-- Modelled from the spec: the engine's `build()`: finalizes the
accumulated commands into the engine's path representation. -/
def SvgPathBuilder.build (s : SvgPathBuilder) : Path :=
  ⟨s.events⟩

/-- Modelled from the spec: `lyon::geom::Arc`, the geometric arc
description the engine's sampling capability consumes: center, radii,
x-rotation, start angle and sweep angle. -/
structure GeomArc where
  center : Point
  radii : Vector
  x_rotation : F
  start_angle : F
  sweep_angle : F
deriving DecidableEq, Repr

/-- Modelled from the spec: one quadratic Bézier segment produced by
the engine's arc decomposition, with its control point and end point. -/
structure QuadraticBezierSegment where
  ctrl : Point
  «to» : Point
deriving DecidableEq, Repr

/-- Modelled from the spec: the engine's arc sampling and decomposition
capability (`sample(t) -> Point` and "decompose into quadratic Bézier
segments"); its numerical content lives in the external geometry engine
and is therefore kept abstract: the theorems below hold for every such
capability. -/
structure ArcGeometry where
  sample : GeomArc → F → Point
  decompose : GeomArc → List QuadraticBezierSegment

/-- A trivial instance of the sampling capability, used to instantiate
universally quantified statements at concrete inputs. -/
def trivialArcGeometry : ArcGeometry :=
  ⟨fun g _ => g.center, fun _ => []⟩

/-- `Arc` from the canvas module: a circular arc given by center,
radius, start angle and end angle (radians). -/
structure Arc where
  center : Point
  radius : F
  start_angle : F
  end_angle : F
deriving DecidableEq, Repr

/-- `arc::Elliptical`: an elliptical arc with independent radii and a
rotation. -/
structure Elliptical where
  center : Point
  radii : Vector
  rotation : F
  start_angle : F
  end_angle : F
deriving DecidableEq, Repr

/-- Modelled from the spec: the repository's `From<Arc>` conversion to
`arc::Elliptical` (it lives in the `arc` module, which is not among the
provided sources): equal radii on both axes and zero rotation. -/
def Arc.toElliptical (a : Arc) : Elliptical :=
  ⟨a.center, ⟨a.radius, a.radius⟩, F.num 0, a.start_angle, a.end_angle⟩

/-- The path builder from
`src/graphics/src/widget/canvas/path/builder.rs`: a wrapper around the
engine's SVG path builder. -/
structure Builder where
  raw : SvgPathBuilder
deriving DecidableEq, Repr

/-- `Builder::new`: wraps a fresh SVG engine builder. -/
def Builder.new : Builder :=
  ⟨SvgPathBuilder.new⟩

/-- `Builder::move_to`: forwards to the engine's `move_to`. -/
def Builder.move_to (self : Builder) (point : Point) : Builder :=
  ⟨self.raw.move_to point⟩

/-- `Builder::line_to`: forwards to the engine's `line_to`. -/
def Builder.line_to (self : Builder) (point : Point) : Builder :=
  ⟨self.raw.line_to point⟩

/-- The `lyon::geom::Arc` value that `Builder::ellipse` constructs from
its argument: the sweep angle is the argument's `end_angle` field. -/
def Builder.geomArcOf (arc : Elliptical) : GeomArc :=
  ⟨arc.center, arc.radii, arc.rotation, arc.start_angle, arc.end_angle⟩

/-- `Builder::ellipse`: constructs the geometric arc, moves to its
sample at parameter `0`, then appends every quadratic Bézier segment of
its decomposition, in order.  The engine's sampling capability `g` is a
parameter (it is external to the repository). -/
def Builder.ellipse (g : ArcGeometry) (self : Builder)
    (arc : Elliptical) : Builder :=
  let garc := Builder.geomArcOf arc
  let raw := self.raw.move_to (g.sample garc (F.num 0))
  let raw := (g.decompose garc).foldl
    (fun s curve => s.quadratic_bezier_to curve.ctrl curve.«to») raw
  ⟨raw⟩

/-- `Builder::arc`: converts the `Arc` into an elliptical arc and
delegates to `ellipse`. -/
def Builder.arc (g : ArcGeometry) (self : Builder) (arc : Arc) : Builder :=
  Builder.ellipse g self arc.toElliptical

/-- `Builder::arc_to`: if the engine's current position differs from
`a` under the engine's (IEEE) point equality, first appends a straight
line to `a`; then invokes the engine's `arc_to` with equal radii
`(radius, radius)`, zero x-rotation, the default flags, and destination
`b`. -/
def Builder.arc_to (self : Builder) (a b : Point) (radius : F) : Builder :=
  let raw :=
    if !(Point.ieeeEq self.raw.current_position a) then
      self.raw.line_to a
    else
      self.raw
  ⟨raw.arc_to ⟨radius, radius⟩ (F.num 0) ArcFlags.default b⟩

/-- `Builder::bezier_curve_to`: forwards to the engine's
`cubic_bezier_to`. -/
def Builder.bezier_curve_to (self : Builder)
    (control_a control_b «to» : Point) : Builder :=
  ⟨self.raw.cubic_bezier_to control_a control_b «to»⟩

/-- `Builder::quadratic_curve_to`: forwards to the engine's
`quadratic_bezier_to`. -/
def Builder.quadratic_curve_to (self : Builder)
    (control «to» : Point) : Builder :=
  ⟨self.raw.quadratic_bezier_to control «to»⟩

/-- `Builder::close`: forwards to the engine's `close`. -/
def Builder.close (self : Builder) : Builder :=
  ⟨self.raw.close⟩

/-- `Builder::rectangle`: move to the top-left corner, three straight
lines through the other corners (right, down, left), then `close`. -/
def Builder.rectangle (self : Builder) (top_left : Point)
    (size : Size) : Builder :=
  ((((self.move_to top_left).line_to
      ⟨top_left.x + size.width, top_left.y⟩).line_to
      ⟨top_left.x + size.width, top_left.y + size.height⟩).line_to
      ⟨top_left.x, top_left.y + size.height⟩).close

/-- The exact value of the `f32` expression
`2.0 * std::f32::consts::PI`: twice the `f32` nearest to π. -/
def twoPiF32 : F := F.num (13176795 / 2097152)

/-- `Builder::circle`: builds the full-turn `Arc` (start angle `0`, end
angle `2π` as an `f32`) and delegates to `arc`. -/
def Builder.circle (g : ArcGeometry) (self : Builder) (center : Point)
    (radius : F) : Builder :=
  Builder.arc g self ⟨center, radius, F.num 0, twoPiF32⟩

/-- `Builder::build`: finalizes into the immutable `Path`. -/
def Builder.build (self : Builder) : Path :=
  self.raw.build

/-- The point at which a primitive command leaves the engine's cursor,
where `start` is the relevant sub-path starting point (the target of
`close`). -/
def Event.endpoint (start : Point) : Event → Point
  | .moveTo p => p
  | .lineTo p => p
  | .quadraticBezierTo _ p => p
  | .cubicBezierTo _ _ p => p
  | .arcTo _ _ _ p => p
  | .close => start

/-- The cursor invariant: the engine state's current position is the
endpoint of the last command received (in particular, the sub-path
start point right after a `move_to` or a `close`). -/
def cursorAtLast (s : SvgPathBuilder) : Prop :=
  ∀ e, s.events.getLast? = some e → s.current = Event.endpoint s.first e

/-- Appending one element determines the last element of a list. -/
theorem getLast?_append_singleton {α : Type} (l : List α) (a : α) :
    (l ++ [a]).getLast? = some a := by
  induction l with
  | nil => rfl
  | cons b bs ih =>
    cases bs with
    | nil => rfl
    | cons c cs => simpa using ih

/-- The engine's `move_to` leaves the cursor at the endpoint of the
last command. -/
theorem SvgPathBuilder.cursorAtLast_move_to (s : SvgPathBuilder) (p : Point) :
    cursorAtLast (s.move_to p) := by
  intro e he
  simp only [SvgPathBuilder.move_to, getLast?_append_singleton,
    Option.some.injEq] at he
  simp [← he, Event.endpoint, SvgPathBuilder.move_to]

/-- The engine's `line_to` leaves the cursor at the endpoint of the
last command. -/
theorem SvgPathBuilder.cursorAtLast_line_to (s : SvgPathBuilder) (p : Point) :
    cursorAtLast (s.line_to p) := by
  intro e he
  simp only [SvgPathBuilder.line_to, getLast?_append_singleton,
    Option.some.injEq] at he
  simp [← he, Event.endpoint, SvgPathBuilder.line_to]

/-- The engine's `quadratic_bezier_to` leaves the cursor at the
endpoint of the last command. -/
theorem SvgPathBuilder.cursorAtLast_quadratic_bezier_to (s : SvgPathBuilder)
    (ctrl p : Point) : cursorAtLast (s.quadratic_bezier_to ctrl p) := by
  intro e he
  simp only [SvgPathBuilder.quadratic_bezier_to, getLast?_append_singleton,
    Option.some.injEq] at he
  simp [← he, Event.endpoint, SvgPathBuilder.quadratic_bezier_to]

/-- The engine's `cubic_bezier_to` leaves the cursor at the endpoint of
the last command. -/
theorem SvgPathBuilder.cursorAtLast_cubic_bezier_to (s : SvgPathBuilder)
    (c1 c2 p : Point) : cursorAtLast (s.cubic_bezier_to c1 c2 p) := by
  intro e he
  simp only [SvgPathBuilder.cubic_bezier_to, getLast?_append_singleton,
    Option.some.injEq] at he
  simp [← he, Event.endpoint, SvgPathBuilder.cubic_bezier_to]

/-- The engine's `arc_to` leaves the cursor at the endpoint of the last
command. -/
theorem SvgPathBuilder.cursorAtLast_arc_to (s : SvgPathBuilder)
    (radii : Vector) (rotation : F) (flags : ArcFlags) (p : Point) :
    cursorAtLast (s.arc_to radii rotation flags p) := by
  intro e he
  simp only [SvgPathBuilder.arc_to, getLast?_append_singleton,
    Option.some.injEq] at he
  simp [← he, Event.endpoint, SvgPathBuilder.arc_to]

/-- The engine's `close` leaves the cursor at the endpoint of the last
command (the sub-path start). -/
theorem SvgPathBuilder.cursorAtLast_close (s : SvgPathBuilder) :
    cursorAtLast s.close := by
  intro e he
  simp only [SvgPathBuilder.close, getLast?_append_singleton,
    Option.some.injEq] at he
  simp [← he, Event.endpoint, SvgPathBuilder.close]

/-- Folding quadratic Bézier segments over an engine state preserves
the cursor invariant. -/
theorem cursorAtLast_foldl_quad (l : List QuadraticBezierSegment)
    (s : SvgPathBuilder) (h : cursorAtLast s) :
    cursorAtLast (l.foldl
      (fun s curve => s.quadratic_bezier_to curve.ctrl curve.«to») s) := by
  induction l generalizing s with
  | nil => exact h
  | cons c cs ih =>
    exact ih _ (SvgPathBuilder.cursorAtLast_quadratic_bezier_to _ _ _)

/-- Folding quadratic Bézier segments appends the corresponding
commands, in order. -/
theorem foldl_quad_events (l : List QuadraticBezierSegment)
    (s : SvgPathBuilder) :
    (l.foldl (fun s curve => s.quadratic_bezier_to curve.ctrl curve.«to»)
        s).events
      = s.events
        ++ l.map (fun c => Event.quadraticBezierTo c.ctrl c.«to») := by
  induction l generalizing s with
  | nil => simp
  | cons c cs ih =>
    simp only [List.foldl_cons, List.map_cons]
    rw [ih]
    simp [SvgPathBuilder.quadratic_bezier_to]

/-- Characterization of the modelled IEEE float equality: it holds
exactly for equal, non-NaN values. -/
theorem F.ieeeEq_true_iff_eq_num (a b : F) :
    F.ieeeEq a b = true ↔ a = b ∧ a ≠ F.nan := by
  cases a <;> cases b <;> simp [F.ieeeEq]

/-- Characterization of the engine's point equality: it holds exactly
for equal points none of whose coordinates is NaN. -/
theorem Point.ieeeEq_true_iff (p q : Point) :
    Point.ieeeEq p q = true ↔ p = q ∧ p.x ≠ F.nan ∧ p.y ≠ F.nan := by
  obtain ⟨px, py⟩ := p
  obtain ⟨qx, qy⟩ := q
  simp only [Point.ieeeEq, Bool.and_eq_true, F.ieeeEq_true_iff_eq_num,
    Point.mk.injEq]
  tauto

/-- The full effect of `Builder::arc_to` on the command sequence: an
optional continuity line, then the engine's `arc_to` with equal radii,
zero rotation and the default flags. -/
theorem Builder.arc_to_events (self : Builder) (a b : Point) (radius : F) :
    (self.arc_to a b radius).raw.events
      = self.raw.events
        ++ (if Point.ieeeEq self.raw.current_position a then []
            else [Event.lineTo a])
        ++ [Event.arcTo ⟨radius, radius⟩ (F.num 0) ArcFlags.default b] := by
  by_cases h : Point.ieeeEq self.raw.current_position a
  · simp [Builder.arc_to, h, SvgPathBuilder.arc_to]
  · simp [Builder.arc_to, h, SvgPathBuilder.arc_to, SvgPathBuilder.line_to]

/-- C1: for every call `arc_to(a, b, radius)`: if the builder's current
position equals `a` (under the engine's point equality, the comparison
the source performs), no straight line segment is inserted before the
arc; if it differs, exactly one straight line segment from the current
position to `a` is appended before the arc; in both cases the engine's
`arc_to` primitive is then invoked toward `b`. -/
theorem claim_C1_arc_to_continuity (self : Builder) (a b : Point)
    (radius : F) :
    (Point.ieeeEq self.raw.current_position a = true →
      (self.arc_to a b radius).raw.events
        = self.raw.events
          ++ [Event.arcTo ⟨radius, radius⟩ (F.num 0) ArcFlags.default b])
    ∧ (Point.ieeeEq self.raw.current_position a = false →
      (self.arc_to a b radius).raw.events
        = self.raw.events
          ++ [Event.lineTo a,
              Event.arcTo ⟨radius, radius⟩ (F.num 0) ArcFlags.default b]) := by
  constructor <;> intro h <;> simp [Builder.arc_to_events, h]

/-- Witness for C1: a fresh builder has its cursor at the origin; an
`arc_to` starting at the origin inserts no line, one starting at
`(1, 0)` inserts exactly one line, and both invoke the engine's
`arc_to` toward `(2, 3)`. -/
theorem claim_C1_arc_to_continuity_witness :
    (Builder.arc_to Builder.new Point.origin ⟨F.num 2, F.num 3⟩
        (F.num 1)).raw.events
      = Builder.new.raw.events
        ++ [Event.arcTo ⟨F.num 1, F.num 1⟩ (F.num 0) ArcFlags.default
              ⟨F.num 2, F.num 3⟩]
    ∧ (Builder.arc_to Builder.new ⟨F.num 1, F.num 0⟩ ⟨F.num 2, F.num 3⟩
        (F.num 1)).raw.events
      = Builder.new.raw.events
        ++ [Event.lineTo ⟨F.num 1, F.num 0⟩,
            Event.arcTo ⟨F.num 1, F.num 1⟩ (F.num 0) ArcFlags.default
              ⟨F.num 2, F.num 3⟩] :=
  ⟨(claim_C1_arc_to_continuity Builder.new Point.origin ⟨F.num 2, F.num 3⟩
      (F.num 1)).1 (by decide),
   (claim_C1_arc_to_continuity Builder.new ⟨F.num 1, F.num 0⟩
      ⟨F.num 2, F.num 3⟩ (F.num 1)).2 (by decide)⟩

/-- C2: `ellipse(arc)` constructs a geometric arc whose sweep angle is
the argument's `end_angle` field (an angular delta, not an absolute
terminal angle), first issues a `move_to` to the arc sampled at
parameter `0` (restarting a sub-path at the arc's start point instead
of connecting from the current cursor), and then appends each quadratic
Bézier segment of the arc's decomposition, in decomposition order. -/
theorem claim_C2_ellipse_sweep_move_decompose (g : ArcGeometry)
    (self : Builder) (arc : Elliptical) :
    Builder.geomArcOf arc
      = ⟨arc.center, arc.radii, arc.rotation, arc.start_angle,
          arc.end_angle⟩
    ∧ (Builder.geomArcOf arc).sweep_angle = arc.end_angle
    ∧ (Builder.ellipse g self arc).raw.events
        = self.raw.events
          ++ Event.moveTo (g.sample (Builder.geomArcOf arc) (F.num 0))
            :: (g.decompose (Builder.geomArcOf arc)).map
                 (fun c => Event.quadraticBezierTo c.ctrl c.«to») := by
  refine ⟨rfl, rfl, ?_⟩
  simp [Builder.ellipse, foldl_quad_events, SvgPathBuilder.move_to]

/-- C3: `rectangle(top_left, size)` performs exactly `move_to` to the
top-left corner, three `line_to`s through the other corners in
clockwise order (right, then down, then left), then `close`; `size` is
not validated (the statement quantifies over every size, negative
components included). -/
theorem claim_C3_rectangle_commands (self : Builder) (top_left : Point)
    (size : Size) :
    (self.rectangle top_left size).raw.events
      = self.raw.events
        ++ [Event.moveTo top_left,
            Event.lineTo ⟨top_left.x + size.width, top_left.y⟩,
            Event.lineTo ⟨top_left.x + size.width,
              top_left.y + size.height⟩,
            Event.lineTo ⟨top_left.x, top_left.y + size.height⟩,
            Event.close] := by
  simp [Builder.rectangle, Builder.move_to, Builder.line_to, Builder.close,
    SvgPathBuilder.move_to, SvgPathBuilder.line_to, SvgPathBuilder.close]

/-- C4: `circle(center, radius)` has exactly the effect of `arc`
applied to the `Arc` with that center and radius, start angle `0` and
end angle `2π` (as an `f32`); and `arc(a)` has exactly the effect of
`ellipse` applied to the elliptical arc obtained from `a` with equal
radii on both axes and zero rotation. -/
theorem claim_C4_circle_arc_delegation (g : ArcGeometry) (self : Builder)
    (center : Point) (radius : F) :
    Builder.circle g self center radius
        = Builder.arc g self ⟨center, radius, F.num 0, twoPiF32⟩
    ∧ ∀ a : Arc,
        Builder.arc g self a
          = Builder.ellipse g self
              ⟨a.center, ⟨a.radius, a.radius⟩, F.num 0, a.start_angle,
                a.end_angle⟩ :=
  ⟨rfl, fun _ => rfl⟩

/-- C5: on a fresh builder, `move_to(P1); line_to(P2); build()` yields
a path holding exactly one straight segment, from `P1` to `P2`, with
the coordinates unchanged. -/
theorem claim_C5_move_line_build (P1 P2 : Point) :
    ((Builder.new.move_to P1).line_to P2).build
      = ⟨[Event.moveTo P1, Event.lineTo P2]⟩ :=
  rfl

/-- C6: after every builder operation, the engine's current position is
the endpoint of the last-added command (the sub-path start point right
after a `move_to`, and for `close` the sub-path start it returns to). -/
theorem claim_C6_cursor_invariant (g : ArcGeometry) (self : Builder)
    (p q r : Point) (radius : F) (a : Arc) (e : Elliptical)
    (top_left : Point) (size : Size) :
    cursorAtLast (self.move_to p).raw
    ∧ cursorAtLast (self.line_to p).raw
    ∧ cursorAtLast (Builder.arc g self a).raw
    ∧ cursorAtLast (self.arc_to p q radius).raw
    ∧ cursorAtLast (Builder.ellipse g self e).raw
    ∧ cursorAtLast (self.bezier_curve_to p q r).raw
    ∧ cursorAtLast (self.quadratic_curve_to p q).raw
    ∧ cursorAtLast (self.rectangle top_left size).raw
    ∧ cursorAtLast (Builder.circle g self p radius).raw
    ∧ cursorAtLast self.close.raw := by
  have hellipse : ∀ (b : Builder) (ea : Elliptical),
      cursorAtLast (Builder.ellipse g b ea).raw := by
    intro b ea
    simp only [Builder.ellipse]
    exact cursorAtLast_foldl_quad _ _
      (SvgPathBuilder.cursorAtLast_move_to _ _)
  refine ⟨SvgPathBuilder.cursorAtLast_move_to _ _,
    SvgPathBuilder.cursorAtLast_line_to _ _,
    hellipse _ _, ?_, hellipse _ _,
    SvgPathBuilder.cursorAtLast_cubic_bezier_to _ _ _ _,
    SvgPathBuilder.cursorAtLast_quadratic_bezier_to _ _ _,
    SvgPathBuilder.cursorAtLast_close _,
    hellipse _ _,
    SvgPathBuilder.cursorAtLast_close _⟩
  simp only [Builder.arc_to]
  exact SvgPathBuilder.cursorAtLast_arc_to _ _ _ _ _

/-- Witness for C6 at a concrete instance: after `move_to` of the
origin on a fresh builder, the cursor is the endpoint of the last
command. -/
theorem claim_C6_cursor_invariant_witness :
    (Builder.move_to Builder.new Point.origin).raw.current
      = Event.endpoint (Builder.move_to Builder.new Point.origin).raw.first
          (Event.moveTo Point.origin) :=
  (claim_C6_cursor_invariant trivialArcGeometry Builder.new Point.origin
      Point.origin Point.origin (F.num 0)
      ⟨Point.origin, F.num 0, F.num 0, F.num 0⟩
      ⟨Point.origin, ⟨F.num 0, F.num 0⟩, F.num 0, F.num 0, F.num 0⟩
      Point.origin ⟨F.num 0, F.num 0⟩).1
    (Event.moveTo Point.origin) rfl

/-- C7: every builder operation is a total function on the builder's
state (in the embedding each operation has codomain `Builder`, with no
error outcome, mirroring the infallible `&mut self` methods of the
source), is defined for every input with no validation (the statement
quantifies over all points, sizes, radii and angles, NaN and negative
values included), and its only effect is to extend the builder's
accumulated command sequence. -/
theorem claim_C7_infallible_append_only (g : ArcGeometry) (self : Builder)
    (p q r : Point) (radius : F) (a : Arc) (e : Elliptical)
    (top_left : Point) (size : Size) :
    (∃ t, (self.move_to p).raw.events = self.raw.events ++ t)
    ∧ (∃ t, (self.line_to p).raw.events = self.raw.events ++ t)
    ∧ (∃ t, (Builder.arc g self a).raw.events = self.raw.events ++ t)
    ∧ (∃ t, (self.arc_to p q radius).raw.events = self.raw.events ++ t)
    ∧ (∃ t, (Builder.ellipse g self e).raw.events = self.raw.events ++ t)
    ∧ (∃ t, (self.bezier_curve_to p q r).raw.events
        = self.raw.events ++ t)
    ∧ (∃ t, (self.quadratic_curve_to p q).raw.events
        = self.raw.events ++ t)
    ∧ (∃ t, (self.rectangle top_left size).raw.events
        = self.raw.events ++ t)
    ∧ (∃ t, (Builder.circle g self p radius).raw.events
        = self.raw.events ++ t)
    ∧ (∃ t, self.close.raw.events = self.raw.events ++ t) := by
  have hellipse : ∀ (b : Builder) (ea : Elliptical), ∃ t,
      (Builder.ellipse g b ea).raw.events = b.raw.events ++ t := by
    intro b ea
    exact ⟨Event.moveTo (g.sample (Builder.geomArcOf ea) (F.num 0))
        :: (g.decompose (Builder.geomArcOf ea)).map
             (fun c => Event.quadraticBezierTo c.ctrl c.«to»),
      by simp [Builder.ellipse, foldl_quad_events, SvgPathBuilder.move_to]⟩
  refine ⟨⟨_, rfl⟩, ⟨_, rfl⟩, hellipse _ _,
    ⟨(if Point.ieeeEq self.raw.current_position p then []
        else [Event.lineTo p])
      ++ [Event.arcTo ⟨radius, radius⟩ (F.num 0) ArcFlags.default q],
      by rw [Builder.arc_to_events, List.append_assoc]⟩,
    hellipse _ _, ⟨_, rfl⟩, ⟨_, rfl⟩,
    ⟨[Event.moveTo top_left,
      Event.lineTo ⟨top_left.x + size.width, top_left.y⟩,
      Event.lineTo ⟨top_left.x + size.width, top_left.y + size.height⟩,
      Event.lineTo ⟨top_left.x, top_left.y + size.height⟩,
      Event.close], ?_⟩, hellipse _ _, ⟨_, rfl⟩⟩
  simp [Builder.rectangle, Builder.move_to, Builder.line_to, Builder.close,
    SvgPathBuilder.move_to, SvgPathBuilder.line_to, SvgPathBuilder.close]

/-- C9: every call `arc_to(a, b, radius)` invokes the engine's `arc_to`
primitive with equal radii `(radius, radius)`, an x-rotation of `0`
radians, and the engine's default arc flags (large-arc flag `false`,
sweep flag `false`); the operation's three parameters give the caller
no way to choose different flags, another sweep direction, or distinct
radii. -/
theorem claim_C9_arc_to_fixed_engine_arguments (self : Builder)
    (a b : Point) (radius : F) :
    ArcFlags.default = ⟨false, false⟩
    ∧ (self.arc_to a b radius).raw.events
      = self.raw.events
        ++ (if Point.ieeeEq self.raw.current_position a then []
            else [Event.lineTo a])
        ++ [Event.arcTo ⟨radius, radius⟩ (F.num 0) ⟨false, false⟩ b] :=
  ⟨rfl, Builder.arc_to_events self a b radius⟩

/-- C10: the continuity check of `arc_to` uses the exact IEEE equality
of `f32`: a current position that differs from `a` as a value, by any
amount, triggers the extra straight line; and whenever any coordinate
of the current position or of `a` is NaN, the comparison is unequal, so
the line is always inserted. -/
theorem claim_C10_exact_comparison_nan (self : Builder) (a b : Point)
    (radius : F) :
    (self.raw.current_position ≠ a →
      (self.arc_to a b radius).raw.events
        = self.raw.events
          ++ [Event.lineTo a,
              Event.arcTo ⟨radius, radius⟩ (F.num 0) ArcFlags.default b])
    ∧ (self.raw.current_position.x = F.nan
        ∨ self.raw.current_position.y = F.nan
        ∨ a.x = F.nan ∨ a.y = F.nan →
      (self.arc_to a b radius).raw.events
        = self.raw.events
          ++ [Event.lineTo a,
              Event.arcTo ⟨radius, radius⟩ (F.num 0)
                ArcFlags.default b]) := by
  constructor
  · intro h
    have hfalse : Point.ieeeEq self.raw.current_position a = false := by
      rcases hb : Point.ieeeEq self.raw.current_position a with _ | _
      · rfl
      · exact absurd ((Point.ieeeEq_true_iff _ _).1 hb).1 h
    simp [Builder.arc_to_events, hfalse]
  · intro h
    have hfalse : Point.ieeeEq self.raw.current_position a = false := by
      rcases hb : Point.ieeeEq self.raw.current_position a with _ | _
      · rfl
      · obtain ⟨heq, hx, hy⟩ := (Point.ieeeEq_true_iff _ _).1 hb
        rcases h with h | h | h | h
        · exact absurd h hx
        · exact absurd h hy
        · exact absurd (heq ▸ h) hx
        · exact absurd (heq ▸ h) hy
    simp [Builder.arc_to_events, hfalse]

/-- Witness for C10: on a fresh builder (cursor at the origin), an
`arc_to` whose start point is `(1, 0)` inserts the continuity line, and
so does one whose start point has a NaN coordinate. -/
theorem claim_C10_exact_comparison_nan_witness :
    (Builder.arc_to Builder.new ⟨F.num 1, F.num 0⟩ ⟨F.num 5, F.num 5⟩
        (F.num 2)).raw.events
      = Builder.new.raw.events
        ++ [Event.lineTo ⟨F.num 1, F.num 0⟩,
            Event.arcTo ⟨F.num 2, F.num 2⟩ (F.num 0) ArcFlags.default
              ⟨F.num 5, F.num 5⟩]
    ∧ (Builder.arc_to Builder.new ⟨F.nan, F.num 0⟩ ⟨F.num 5, F.num 5⟩
        (F.num 2)).raw.events
      = Builder.new.raw.events
        ++ [Event.lineTo ⟨F.nan, F.num 0⟩,
            Event.arcTo ⟨F.num 2, F.num 2⟩ (F.num 0) ArcFlags.default
              ⟨F.num 5, F.num 5⟩] :=
  ⟨(claim_C10_exact_comparison_nan Builder.new ⟨F.num 1, F.num 0⟩
      ⟨F.num 5, F.num 5⟩ (F.num 2)).1 (by decide),
   (claim_C10_exact_comparison_nan Builder.new ⟨F.nan, F.num 0⟩
      ⟨F.num 5, F.num 5⟩ (F.num 2)).2 (Or.inr (Or.inr (Or.inl rfl)))⟩

end Iced
